import Mathlib

/-!
Shallow embedding of the plyer notification module (facade +
Android platform adapter) and proofs of its specified properties.

Source files embedded:
  * src/plyer/facades/notification.py        (class Notification)
  * src/plyer/platforms/android/notification.py (class AndroidNotification)

Python strings are modelled as Lean `String`; a keyword argument that may
be absent from the `**kwargs` bundle (`kwargs.get(key)` returning `None`)
is an `Option String` with `none` for "absent or None".  Calls into the
Android Java framework are not executed but recorded as `Action` values,
in the order the Python code would issue them; a `NativeEnv` says which
native call (if any) throws, so that exception-propagation behaviour can
be stated for every possible native failure.
-/

namespace Plyer

/-- A Python exception value, as far as this module distinguishes them.
`generic e` is `Exception(e)`: the wrapper built by the outer handler of
`AndroidNotification._notify` (`raise Exception(e)`). -/
inductive PyErr where
  | attributeError (attr : String)
  | notImplementedError (msg : String)
  | nativeError (desc : String)
  | generic (inner : PyErr)
deriving DecidableEq, Repr

/-- One call into the Android Java framework, as issued by
`AndroidNotification`.  Each constructor is one Java API call site in
src/plyer/platforms/android/notification.py. -/
inductive Action where
  | toastShow (message : String)
  | createChannel (channelId : String) (name : String) (importance : Nat)
  | newBuilder (channelId : Option String)
  | setContentTitle (t : String)
  | setContentText (t : String)
  | setTicker (t : String)
  | setOnlyAlertOnce
  | setOngoing
  | setWhen (ts : Nat)
  | setUsesChronometer
  | setSmallIcon (res : Nat)
  | setLargeIconFromFile (path : String)
  | setLargeIconFromResource (res : Nat)
  | setContentIntent
  | setAutoCancel
  | buildCall
  | getNotificationCall
  | serviceNotify (id : Nat)
  | serviceCancel (id : Nat)
deriving DecidableEq, Repr

/-- Whether a call succeeded or raised. -/
inductive Outcome where
  | ok
  | raised (e : PyErr)
deriving DecidableEq, Repr

/-- Result of running `_notify`: the Java calls attempted (in order) and
the final outcome. -/
structure NotifyResult where
  trace : List Action
  outcome : Outcome
deriving DecidableEq, Repr

/-- The native layer: for each attempted Java call, either `none`
(the call succeeds) or `some e` (the call throws `e`).  The Python code
has no control over this; all claims quantify over it. -/
structure NativeEnv where
  fail : Action → Option PyErr

/-- A native environment in which every Java call succeeds. -/
def envOK : NativeEnv := ⟨fun _ => none⟩

/-- Run a straight-line sequence of Java calls under a native
environment: calls are attempted in order and the first one that throws
ends the run (the Python code has no handler between the calls of one
`_notify` body; every inner `try: ... except Exception: raise` is the
identity on exceptions). -/
def runActions (env : NativeEnv) : List Action → NotifyResult
  | [] => ⟨[], Outcome.ok⟩
  | a :: rest =>
    match env.fail a with
    | some e => ⟨[a], Outcome.raised e⟩
    | none =>
      let r := runActions env rest
      ⟨a :: r.trace, r.outcome⟩

/-- android.app.NotificationManager.IMPORTANCE_HIGH -/
def IMPORTANCE_HIGH : Nat := 4
/-- android.app.NotificationManager.IMPORTANCE_DEFAULT -/
def IMPORTANCE_DEFAULT : Nat := 3
/-- android.app.NotificationManager.IMPORTANCE_LOW -/
def IMPORTANCE_LOW : Nat := 2
/-- android.app.NotificationManager.IMPORTANCE_MIN -/
def IMPORTANCE_MIN : Nat := 1

/-- The importance-string to channel-tier mapping inside
`AndroidNotification._build_notification_channel` (the if/elif chain on
`importance`).  `none` stands for an absent keyword (`kwargs.get`
returned None); Python evaluates None == "urgent" to False, so it falls through
to the final else. -/
def importanceTier (importance : Option String) : Nat :=
  if importance = some "urgent" then IMPORTANCE_HIGH
  else if importance = some "high" then IMPORTANCE_DEFAULT
  else if importance = some "medium" then IMPORTANCE_LOW
  else if importance = some "low" then IMPORTANCE_MIN
  else IMPORTANCE_DEFAULT

/-- `AndroidNotification._build_notification_channel(name, importance)`:
below SDK 26 it returns without doing anything; otherwise it constructs
an `android.app.NotificationChannel` with channel id
`activity.getPackageName()` (here `packageName`), display name `name`,
and the tier from `importanceTier`, and registers it with
`createNotificationChannel`. -/
def build_notification_channel (sdkInt : Nat) (packageName : String)
    (name : String) (importance : Option String) : List Action :=
  if sdkInt < 26 then []
  else [Action.createChannel packageName name (importanceTier importance)]

/-- `AndroidNotification._build_notification(title, importance)`:
below SDK 26, `NotificationBuilder(activity)`; otherwise first create the
channel (name = title) and then `NotificationBuilder(activity,
self._channel_id)`. -/
def build_notification (sdkInt : Nat) (packageName : String)
    (title : String) (importance : Option String) : List Action :=
  if sdkInt < 26 then [Action.newBuilder none]
  else build_notification_channel sdkInt packageName title importance
       ++ [Action.newBuilder (some packageName)]

/-- `AndroidNotification._set_icons(notification, icon)` translated
branch for branch.  `Drawable.icon`, the launcher-icon resource of the
app itself, is `appIconRes`.  The Python chain: if icon is not None,
decode the file at icon and set it as the large icon; elif icon equals
the empty string, do nothing; else decode the app resource icon and set
it as the large icon.  Note the order: the empty string is not None, so
the comparison with the empty string is only reached after the
not-None test already failed, which makes the middle branch
unreachable.  NOTE: the call `self._set_icons(noti, icon=icon)`
in `_notify` is commented out in the source, so this function is never
invoked on the dispatch path. -/
def set_icons (appIconRes : Nat) (icon : Option String) : List Action :=
  Action.setSmallIcon appIconRes ::
  (if icon.isSome then
     [Action.setLargeIconFromFile (icon.getD "")]
   else if icon = some "" then
     []
   else
     [Action.setLargeIconFromResource appIconRes])

/-- `AndroidNotification._set_open_behavior(notification,
remove_when_clicked)`: builds a launch intent back into the host
activity (SINGLE_TOP / ACTION_MAIN / CATEGORY_LAUNCHER), wraps it in a
PendingIntent and attaches it with `setContentIntent`; when
`remove_when_clicked` it additionally calls `setAutoCancel(True)`.
NOTE: the call `self._set_open_behavior(noti, remove_when_clicked)` in
`_notify` is commented out in the source, so this function is never
invoked on the dispatch path. -/
def set_open_behavior (remove_when_clicked : Bool) : List Action :=
  [Action.setContentIntent]
  ++ (if remove_when_clicked then [Action.setAutoCancel] else [])

/-- `AndroidNotification._open_notification(notification)`: on SDK 16+
call `notification.build()`, otherwise `notification.getNotification()`,
then hand the result to the notification service with the fixed slot id
0: `self._get_notification_service().notify(0, notification)`. -/
def open_notification (sdkInt : Nat) : List Action :=
  [(if 16 ≤ sdkInt then Action.buildCall else Action.getNotificationCall),
   Action.serviceNotify 0]

/-- The `**kwargs` bundle received by `AndroidNotification._notify`.
String-valued keywords are `Option String` (`none` for absent / None);
flag keywords are read with `kwargs.get(key)` under Python truthiness,
modelled as `Bool` with `false` for absent.  `remove_when_clicked` is
read by `_notify` (lines 233-236) although the facade never forwards
such a key. -/
structure Kwargs where
  title : Option String := none
  message : Option String := none
  app_name : Option String := none
  app_icon : Option String := none
  importance : Option String := none
  timeout : Option Int := none
  ticker : Option String := none
  toast : Bool := false
  chronometer : Bool := false
  only_alert_once : Bool := false
  ongoing : Bool := false
  remove_when_clicked : Bool := false
deriving DecidableEq, Repr

/-- The sequence of Java calls issued by the persistent branch of
`_notify` (after the toast check): build the notification (channel first
on SDK 26+), set title, body and accessibility ticker, apply the three
conditional flags, then hand off via `_open_notification`.  The calls
`self._set_icons(noti, icon=icon)` and
`self._set_open_behavior(noti, remove_when_clicked)` are commented out
in the source, so no icon or content-intent call appears here. -/
def persistent_actions (sdkInt : Nat) (now : Nat) (packageName : String)
    (k : Kwargs) (message ticker : String) : List Action :=
  build_notification sdkInt packageName (k.title.getD "") k.importance
  ++ [Action.setContentTitle (k.title.getD ""),
      Action.setContentText message,
      Action.setTicker ticker]
  ++ (if k.only_alert_once then [Action.setOnlyAlertOnce] else [])
  ++ (if k.ongoing then [Action.setOngoing] else [])
  ++ (if k.chronometer then
        [Action.setWhen (now * 1000), Action.setUsesChronometer]
      else [])
  ++ open_notification sdkInt

/-- The body of `AndroidNotification._notify` (inside its outer `try`).
Order follows the source: the utf-8 encode calls on the message and
ticker entries of kwargs run first and raise
AttributeError when the value is None (before any Java call is made);
title is read with a default of the empty string, so an absent title
becomes empty; then the toast/persistent decision.  On the toast path,
`self._toast(message)` shows the overlay and `_notify` returns at once.
`now` is the whole-second timestamp
`int(round(datetime.now().timestamp()))` read when `chronometer` is
set; `remove_when_clicked` is computed by the source (lines 233-236)
but then unused. -/
def notify_inner (env : NativeEnv) (sdkInt : Nat) (now : Nat)
    (packageName : String) (k : Kwargs) : NotifyResult :=
  match k.message, k.ticker with
  | none, _ => ⟨[], Outcome.raised (PyErr.attributeError "encode")⟩
  | some _, none => ⟨[], Outcome.raised (PyErr.attributeError "encode")⟩
  | some message, some ticker =>
    if k.toast then
      runActions env [Action.toastShow message]
    else
      runActions env (persistent_actions sdkInt now packageName k message ticker)

/-- `AndroidNotification._notify` including its outer handler
`except Exception as e: print("Exception:", e); raise Exception(e)`:
any exception from the body is printed and re-raised wrapped in a
generic `Exception`. -/
def notify (env : NativeEnv) (sdkInt : Nat) (now : Nat)
    (packageName : String) (k : Kwargs) : NotifyResult :=
  match notify_inner env sdkInt now packageName k with
  | ⟨tr, Outcome.ok⟩ => ⟨tr, Outcome.ok⟩
  | ⟨tr, Outcome.raised e⟩ => ⟨tr, Outcome.raised (PyErr.generic e)⟩

/-- The positional/keyword parameters of the public facade method
`Notification.notify`, with the defaults from its signature. -/
structure FacadeArgs where
  title : String := ""
  message : String := ""
  app_name : String := ""
  app_icon : String := ""
  importance : String := ""
  timeout : Int := 10
  ticker : String := ""
  toast : Bool := false
  chronometer : Bool := false
  only_alert_once : Bool := false
  ongoing : Bool := false
deriving DecidableEq, Repr

/-- The keyword bundle built by the facade method `notify` when it calls
`self._notify(title=..., message=..., app_icon=..., app_name=...,
importance=..., timeout=..., ticker=..., toast=..., chronometer=...,
only_alert_once=..., ongoing=...)`: all eleven keys are passed
explicitly; `remove_when_clicked` is not among them. -/
def facadeBundle (a : FacadeArgs) : Kwargs :=
  { title := some a.title
    message := some a.message
    app_name := some a.app_name
    app_icon := some a.app_icon
    importance := some a.importance
    timeout := some a.timeout
    ticker := some a.ticker
    toast := a.toast
    chronometer := a.chronometer
    only_alert_once := a.only_alert_once
    ongoing := a.ongoing
    remove_when_clicked := false }

/-- The default `Notification._notify` of the facade:
`raise NotImplementedError("No usable implementation found!")`,
unconditionally, with no other effect. -/
def default_notify (_k : Kwargs) : NotifyResult :=
  ⟨[], Outcome.raised
        (PyErr.notImplementedError "No usable implementation found!")⟩

/-- `Notification.notify`: build the keyword bundle and forward it to
the active `_notify` implementation. -/
def facade_notify (impl : Kwargs → NotifyResult) (a : FacadeArgs) :
    NotifyResult :=
  impl (facadeBundle a)

/-- The OS notification table: slot id to currently visible
notification (an opaque payload tag).  `NotificationManager.notify(id,
n)` replaces whatever is at `id`. -/
def osNotify (slots : Nat → Option Nat) (id : Nat) (n : Nat) :
    Nat → Option Nat :=
  fun i => if i = id then some n else slots i

/-! ### Helper lemmas -/

/-- Every Java call attempted by `runActions` comes from the given
call sequence. -/
theorem runActions_trace_subset (env : NativeEnv) :
    ∀ acts : List Action, (runActions env acts).trace ⊆ acts := by
  intro acts
  induction acts with
  | nil =>
    intro x hx
    simp [runActions] at hx
  | cons a rest ih =>
    intro x hx
    cases h : env.fail a with
    | some e =>
      simp [runActions, h] at hx
      simp [hx]
    | none =>
      simp [runActions, h] at hx
      rcases hx with hx | hx
      · simp [hx]
      · exact List.mem_cons_of_mem _ (ih hx)

/-- The outer exception handler of `_notify` does not change which Java
calls were attempted. -/
theorem notify_trace (env : NativeEnv) (sdkInt now : Nat) (p : String)
    (k : Kwargs) :
    (notify env sdkInt now p k).trace
      = (notify_inner env sdkInt now p k).trace := by
  rcases h : notify_inner env sdkInt now p k with ⟨tr, out⟩
  cases out <;> simp [notify, h]

/-- Running a single Java call attempts exactly that call. -/
theorem runActions_single_trace (env : NativeEnv) (a : Action) :
    (runActions env [a]).trace = [a] := by
  cases h : env.fail a <;> simp [runActions, h]

/-- On the toast path (`toast` truthy, message and ticker present) the
body of `_notify` runs exactly the single Toast call. -/
theorem notify_inner_toast (env : NativeEnv) (sdkInt now : Nat)
    (p : String) (k : Kwargs) (m t : String) (htoast : k.toast = true)
    (hm : k.message = some m) (ht : k.ticker = some t) :
    notify_inner env sdkInt now p k
      = runActions env [Action.toastShow m] := by
  unfold notify_inner
  rw [hm, ht]
  simp [htoast]

/-- On the persistent path the body of `_notify` runs exactly the
`persistent_actions` sequence. -/
theorem notify_inner_persistent (env : NativeEnv) (sdkInt now : Nat)
    (p : String) (k : Kwargs) (m t : String) (htoast : k.toast = false)
    (hm : k.message = some m) (ht : k.ticker = some t) :
    notify_inner env sdkInt now p k
      = runActions env (persistent_actions sdkInt now p k m t) := by
  unfold notify_inner
  rw [hm, ht]
  simp [htoast]

/-- Java calls that `_notify` can never issue: a cancel call, or a
dispatch to any slot other than 0. -/
def benign : Action → Bool
  | Action.serviceCancel _ => false
  | Action.serviceNotify i => i == 0
  | _ => true

/-- Every call in the persistent sequence is `benign`. -/
theorem persistent_actions_benign (sdkInt now : Nat) (p : String)
    (k : Kwargs) (m t : String) :
    (persistent_actions sdkInt now p k m t).all benign = true := by
  simp only [persistent_actions, build_notification,
    build_notification_channel, open_notification, List.all_append]
  split_ifs <;> simp [benign]

/-- Every Java call attempted by the body of `_notify` is `benign`. -/
theorem notify_inner_trace_benign (env : NativeEnv) (sdkInt now : Nat)
    (p : String) (k : Kwargs) :
    ∀ a ∈ (notify_inner env sdkInt now p k).trace, benign a = true := by
  intro a ha
  rcases hm : k.message with _ | m
  · simp [notify_inner, hm] at ha
  · rcases ht : k.ticker with _ | t
    · simp [notify_inner, hm, ht] at ha
    · cases htoast : k.toast with
      | true =>
        rw [notify_inner_toast env sdkInt now p k m t htoast hm ht] at ha
        have hmem := runActions_trace_subset env [Action.toastShow m] ha
        simp at hmem
        simp [hmem, benign]
      | false =>
        rw [notify_inner_persistent env sdkInt now p k m t htoast hm ht] at ha
        have hmem := runActions_trace_subset env _ ha
        have hall := persistent_actions_benign sdkInt now p k m t
        rw [List.all_eq_true] at hall
        exact hall a hmem

/-! ### Claim theorems -/

/-- Claim C2: the importance-to-channel-tier mapping used when creating
a notification channel is a pure function of the importance argument:
urgent maps to IMPORTANCE_HIGH, high to IMPORTANCE_DEFAULT, medium to
IMPORTANCE_LOW, low to IMPORTANCE_MIN, and every other value (including
the unset default) to IMPORTANCE_DEFAULT; on channel-requiring SDK
versions the channel is registered with exactly that tier. -/
theorem channel_importance_mapping (sdkInt : Nat)
    (packageName name : String) (imp : Option String)
    (hsdk : 26 ≤ sdkInt) :
    build_notification_channel sdkInt packageName name imp
      = [Action.createChannel packageName name (importanceTier imp)] ∧
    (imp = some "urgent" → importanceTier imp = IMPORTANCE_HIGH) ∧
    (imp = some "high" → importanceTier imp = IMPORTANCE_DEFAULT) ∧
    (imp = some "medium" → importanceTier imp = IMPORTANCE_LOW) ∧
    (imp = some "low" → importanceTier imp = IMPORTANCE_MIN) ∧
    (imp ≠ some "urgent" → imp ≠ some "high" → imp ≠ some "medium" →
      imp ≠ some "low" → importanceTier imp = IMPORTANCE_DEFAULT) := by
  refine ⟨?_, ?_, ?_, ?_, ?_, ?_⟩
  · unfold build_notification_channel
    rw [if_neg (by omega)]
  · intro h; subst h; decide
  · intro h; subst h; decide
  · intro h; subst h; decide
  · intro h; subst h; decide
  · intro h1 h2 h3 h4
    unfold importanceTier
    rw [if_neg h1, if_neg h2, if_neg h3, if_neg h4]

/-- Witness for C2 at SDK 26 with the unset default importance. -/
theorem channel_importance_mapping_witness :
    build_notification_channel 26 "org.test" "plyer" (some "")
      = [Action.createChannel "org.test" "plyer"
          (importanceTier (some ""))] ∧
    importanceTier (some "") = IMPORTANCE_DEFAULT := by
  refine ⟨(channel_importance_mapping 26 "org.test" "plyer" (some "")
    (by decide)).1, ?_⟩
  exact (channel_importance_mapping 26 "org.test" "plyer" (some "")
    (by decide)).2.2.2.2.2 (by decide) (by decide) (by decide) (by decide)

/-- Claim C3: for every request with toast set, `_notify` executes only
the toast path: the attempted Java calls are exactly the single Toast
call, so no notification channel is created and no notification builder
is constructed or touched. -/
theorem toast_only_path (env : NativeEnv) (sdkInt now : Nat)
    (packageName : String) (k : Kwargs) (m t : String)
    (htoast : k.toast = true) (hm : k.message = some m)
    (ht : k.ticker = some t) :
    (notify env sdkInt now packageName k).trace = [Action.toastShow m] ∧
    (∀ c nm i, Action.createChannel c nm i
        ∉ (notify env sdkInt now packageName k).trace) ∧
    (∀ b, Action.newBuilder b
        ∉ (notify env sdkInt now packageName k).trace) := by
  have htr : (notify env sdkInt now packageName k).trace
      = [Action.toastShow m] := by
    rw [notify_trace,
      notify_inner_toast env sdkInt now packageName k m t htoast hm ht,
      runActions_single_trace]
  refine ⟨htr, ?_, ?_⟩
  · intro c nm i
    rw [htr]
    simp
  · intro b
    rw [htr]
    simp

/-- Witness for C3 on a concrete toast request. -/
theorem toast_only_path_witness :
    (notify envOK 26 0 "org.test"
        { toast := true, message := some "hello", ticker := some "" }).trace
      = [Action.toastShow "hello"] :=
  (toast_only_path envOK 26 0 "org.test"
    { toast := true, message := some "hello", ticker := some "" }
    "hello" "" rfl rfl rfl).1

/-- Claim C4 counterexample: two requests with toast set that agree on
message but differ in ticker (present versus absent) have different
outcomes — the second raises on the ticker encode before the toast
check, so more than the message field is consulted on the toast path. -/
theorem toast_ticker_counterexample :
    ({ toast := true, message := some "hello", ticker := some "" }
        : Kwargs).toast = true ∧
    ({ toast := true, message := some "hello" } : Kwargs).toast = true ∧
    ({ toast := true, message := some "hello", ticker := some "" }
        : Kwargs).message
      = ({ toast := true, message := some "hello" } : Kwargs).message ∧
    notify envOK 26 0 "org.app"
        { toast := true, message := some "hello", ticker := some "" }
      ≠ notify envOK 26 0 "org.app"
        { toast := true, message := some "hello" } := by
  refine ⟨rfl, rfl, rfl, ?_⟩
  decide

/-- Claim C4 (amended): for any two requests that both have toast set,
agree on message, and both supply a ticker string (the ticker is encoded
before the toast check, so it must be present, but its value is
irrelevant), `_notify` performs the same actions with the same outcome,
whatever the other fields are. -/
theorem toast_message_only_noninterference (env : NativeEnv)
    (sdkInt now : Nat) (packageName : String) (k1 k2 : Kwargs)
    (m t1 t2 : String) (h1 : k1.toast = true) (h2 : k2.toast = true)
    (hm1 : k1.message = some m) (hm2 : k2.message = some m)
    (ht1 : k1.ticker = some t1) (ht2 : k2.ticker = some t2) :
    notify env sdkInt now packageName k1
      = notify env sdkInt now packageName k2 := by
  unfold notify
  rw [notify_inner_toast env sdkInt now packageName k1 m t1 h1 hm1 ht1,
      notify_inner_toast env sdkInt now packageName k2 m t2 h2 hm2 ht2]

/-- Witness for the amended C4: same message, different title, ticker
and icon. -/
theorem toast_message_only_noninterference_witness :
    notify envOK 26 0 "org.app"
        { toast := true, message := some "hi", ticker := some "a",
          title := some "x" }
      = notify envOK 26 0 "org.app"
        { toast := true, message := some "hi", ticker := some "b",
          app_icon := some "p", ongoing := true } :=
  toast_message_only_noninterference envOK 26 0 "org.app"
    { toast := true, message := some "hi", ticker := some "a",
      title := some "x" }
    { toast := true, message := some "hi", ticker := some "b",
      app_icon := some "p", ongoing := true }
    "hi" "a" "b" rfl rfl rfl rfl rfl rfl

/-- Claim C6: every dispatch of a persistent notification uses the
fixed slot id 0 (no per-call unique id), and the OS slot table semantics
make the second of two successive dispatches to slot 0 replace the
first, so at most one notification from this adapter is visible. -/
theorem fixed_slot_zero (env : NativeEnv) (sdkInt now : Nat)
    (packageName : String) (k : Kwargs) (i : Nat)
    (hmem : Action.serviceNotify i
      ∈ (notify env sdkInt now packageName k).trace) :
    i = 0 ∧ ∀ (slots : Nat → Option Nat) (n1 n2 : Nat),
      osNotify (osNotify slots 0 n1) 0 n2 = osNotify slots 0 n2 := by
  constructor
  · rw [notify_trace] at hmem
    have hb := notify_inner_trace_benign env sdkInt now packageName k
      _ hmem
    simpa [benign] using hb
  · intro slots n1 n2
    funext j
    unfold osNotify
    by_cases hj : j = 0 <;> simp [hj]

/-- Witness for C6: a concrete dispatch whose trace contains the
service notify call, necessarily at slot 0. -/
theorem fixed_slot_zero_witness :
    (0 : Nat) = 0 ∧ ∀ (slots : Nat → Option Nat) (n1 n2 : Nat),
      osNotify (osNotify slots 0 n1) 0 n2 = osNotify slots 0 n2 :=
  fixed_slot_zero envOK 26 0 "org.test"
    { message := some "m", ticker := some "" } 0 (by decide)

/-- The timeout entry of the keyword bundle is never read by `_notify`:
replacing it changes nothing. -/
theorem notify_timeout_update (env : NativeEnv) (sdkInt now : Nat)
    (p : String) (k : Kwargs) (t : Option Int) :
    notify env sdkInt now p { k with timeout := t }
      = notify env sdkInt now p k := rfl

/-- Claim C7: the timeout argument never influences behaviour — two
requests differing only in timeout produce identical actions and
outcome, and no auto-dismiss (service cancel) is ever attempted. -/
theorem timeout_noninterference (env : NativeEnv) (sdkInt now : Nat)
    (p : String) (k1 k2 : Kwargs)
    (h : k1 = { k2 with timeout := k1.timeout }) :
    notify env sdkInt now p k1 = notify env sdkInt now p k2 ∧
    ∀ i, Action.serviceCancel i ∉ (notify env sdkInt now p k1).trace := by
  constructor
  · rw [h]
    exact notify_timeout_update env sdkInt now p k2 k1.timeout
  · intro i hmem
    rw [notify_trace] at hmem
    have hb := notify_inner_trace_benign env sdkInt now p k1 _ hmem
    simp [benign] at hb

/-- Witness for C7: two concrete requests differing only in timeout. -/
theorem timeout_noninterference_witness :
    notify envOK 26 0 "org.app"
        { message := some "m", ticker := some "", timeout := some 10 }
      = notify envOK 26 0 "org.app"
        { message := some "m", ticker := some "", timeout := some 999 } ∧
    ∀ i, Action.serviceCancel i ∉
      (notify envOK 26 0 "org.app"
        { message := some "m", ticker := some "",
          timeout := some 10 }).trace :=
  timeout_noninterference envOK 26 0 "org.app"
    { message := some "m", ticker := some "", timeout := some 10 }
    { message := some "m", ticker := some "", timeout := some 999 }
    (by decide)

/-- Claim C8: calling notify on the facade when no platform
implementation overrides the private hook fails unconditionally with
NotImplementedError and performs no Java call, for every argument
combination. -/
theorem facade_unimplemented (a : FacadeArgs) :
    facade_notify default_notify a
      = ⟨[], Outcome.raised
          (PyErr.notImplementedError
            "No usable implementation found!")⟩ := rfl

/-- Native environment for C9: channel creation throws a
SecurityException-like native error. -/
def envC9 : NativeEnv :=
  ⟨fun a =>
    if a = Action.createChannel "org.test" "t" IMPORTANCE_DEFAULT
    then some (PyErr.nativeError "SecurityException") else none⟩

/-- Concrete request for C9. -/
def kC9 : Kwargs :=
  { title := some "t", message := some "m", ticker := some "" }

/-- Claim C9 counterexample: a native error thrown during channel
creation does not reach the caller unchanged — the outer handler of
`_notify` re-raises it wrapped in a generic Exception. -/
theorem exception_wrapping_counterexample :
    (notify envC9 26 0 "org.test" kC9).outcome
        = Outcome.raised
            (PyErr.generic (PyErr.nativeError "SecurityException")) ∧
    (notify envC9 26 0 "org.test" kC9).outcome
        ≠ Outcome.raised (PyErr.nativeError "SecurityException") := by
  decide

/-- Claim C9 (amended): any exception raised inside the body of
`_notify` (channel creation, builder assembly, dispatch, or argument
encoding) makes the call fail by raising: it is re-raised wrapped in a
generic Exception carrying the original, nothing is suppressed or
retried, and the attempted calls are exactly those of the failed body
(no rollback, no further calls). -/
theorem exception_propagation_wrapped (env : NativeEnv)
    (sdkInt now : Nat) (p : String) (k : Kwargs) (e : PyErr)
    (h : (notify_inner env sdkInt now p k).outcome = Outcome.raised e) :
    (notify env sdkInt now p k).outcome
        = Outcome.raised (PyErr.generic e) ∧
    (notify env sdkInt now p k).trace
        = (notify_inner env sdkInt now p k).trace := by
  refine ⟨?_, notify_trace env sdkInt now p k⟩
  rcases hr : notify_inner env sdkInt now p k with ⟨tr, out⟩
  rw [hr] at h
  cases out with
  | ok => cases h
  | raised e2 =>
    have h2 : Outcome.raised e2 = Outcome.raised e := h
    injection h2 with he
    subst he
    simp [notify, hr]

/-- Witness for the amended C9 at a concrete native failure. -/
theorem exception_propagation_wrapped_witness :
    (notify envC9 26 0 "org.test" kC9).outcome
        = Outcome.raised
            (PyErr.generic (PyErr.nativeError "SecurityException")) ∧
    (notify envC9 26 0 "org.test" kC9).trace
        = (notify_inner envC9 26 0 "org.test" kC9).trace :=
  exception_propagation_wrapped envC9 26 0 "org.test" kC9
    (PyErr.nativeError "SecurityException") (by decide)

/-- A run of a nonempty call sequence attempts at least one call. -/
theorem runActions_trace_ne_nil (env : NativeEnv) (a : Action)
    (rest : List Action) :
    (runActions env (a :: rest)).trace ≠ [] := by
  cases h : env.fail a <;> simp [runActions, h]

/-- The persistent call sequence always starts with a builder or
channel call. -/
theorem persistent_actions_ne_nil (sdkInt now : Nat) (p : String)
    (k : Kwargs) (m t : String) :
    persistent_actions sdkInt now p k m t ≠ [] := by
  simp only [persistent_actions, build_notification,
    build_notification_channel]
  split_ifs <;> simp

/-- Claim C10: the message and ticker entries are encoded
unconditionally and with no default, so a bundle missing either (or
holding None) raises before any Java call — empty trace, AttributeError
(wrapped by the outer handler); and the facade method notify always
fills all eleven keys, message and ticker included, so through the
public interface this failure cannot occur (every facade-routed call
attempts at least one Java call instead of failing on encode). -/
theorem encode_guard :
    (∀ (env : NativeEnv) (sdkInt now : Nat) (p : String) (k : Kwargs),
      k.message = none ∨ k.ticker = none →
      notify env sdkInt now p k
        = ⟨[], Outcome.raised
            (PyErr.generic (PyErr.attributeError "encode"))⟩) ∧
    (∀ (env : NativeEnv) (sdkInt now : Nat) (p : String)
        (a : FacadeArgs),
      (facadeBundle a).message = some a.message ∧
      (facadeBundle a).ticker = some a.ticker ∧
      (facade_notify (notify env sdkInt now p) a).trace ≠ []) := by
  constructor
  · intro env sdkInt now p k h
    have hinner : notify_inner env sdkInt now p k
        = ⟨[], Outcome.raised (PyErr.attributeError "encode")⟩ := by
      unfold notify_inner
      rcases h with h | h
      · rw [h]
      · rw [h]
        rcases k.message with _ | m <;> rfl
    simp [notify, hinner]
  · intro env sdkInt now p a
    refine ⟨rfl, rfl, ?_⟩
    have hb : facade_notify (notify env sdkInt now p) a
        = notify env sdkInt now p (facadeBundle a) := rfl
    rw [hb, notify_trace]
    cases htoast : (facadeBundle a).toast with
    | true =>
      rw [notify_inner_toast env sdkInt now p (facadeBundle a)
        a.message a.ticker htoast rfl rfl, runActions_single_trace]
      simp
    | false =>
      rw [notify_inner_persistent env sdkInt now p (facadeBundle a)
        a.message a.ticker htoast rfl rfl]
      rcases hpa : persistent_actions sdkInt now p (facadeBundle a)
          a.message a.ticker with _ | ⟨b, rest⟩
      · exact absurd hpa
          (persistent_actions_ne_nil sdkInt now p (facadeBundle a)
            a.message a.ticker)
      · exact runActions_trace_ne_nil env b rest

/-- Witness for C10: a direct call missing message fails with an empty
trace; the same bundle routed through the facade does attempt a Java
call. -/
theorem encode_guard_witness :
    notify envOK 26 0 "org.app" { ticker := some "" }
      = ⟨[], Outcome.raised
          (PyErr.generic (PyErr.attributeError "encode"))⟩ ∧
    (facade_notify (notify envOK 26 0 "org.app")
        { ticker := "" }).trace ≠ [] :=
  ⟨encode_guard.1 envOK 26 0 "org.app" { ticker := some "" }
      (Or.inl rfl),
   (encode_guard.2 envOK 26 0 "org.app" { ticker := "" }).2.2⟩

/-- Claim C1 (code bug): on a persistent dispatch the adapter sets no
small and no large icon at all — the `_set_icons` call in `_notify` is
commented out, so the trace of a dispatched notification contains no
icon call; moreover `_set_icons` itself, if it were called with the
empty-string icon, would take the not-None branch and set a large icon
decoded from the empty path (the empty-string suppression branch is
unreachable), contradicting the specified resolution. -/
theorem icons_never_set :
    (notify envOK 26 0 "org.test"
        (facadeBundle
          { title := "t", message := "m", app_icon := "" })).trace
      = [Action.createChannel "org.test" "t" IMPORTANCE_DEFAULT,
         Action.newBuilder (some "org.test"),
         Action.setContentTitle "t", Action.setContentText "m",
         Action.setTicker "", Action.buildCall,
         Action.serviceNotify 0] ∧
    (notify envOK 26 0 "org.test"
        (facadeBundle
          { title := "t", message := "m", app_icon := "" })).outcome = Outcome.ok ∧
    set_icons 7 (some "")
      = [Action.setSmallIcon 7, Action.setLargeIconFromFile ""] := by
  decide

/-- Claim C5 (code bug): on a persistent dispatch no content intent is
attached and no auto-cancel is set even when remove_when_clicked is
requested — the `_set_open_behavior` call in `_notify` is commented out
(the flag is computed and then unused), although the function itself
would attach the content intent and set auto-cancel. -/
theorem open_behavior_never_attached :
    (notify envOK 26 0 "org.test"
        { title := some "t", message := some "m", ticker := some "",
          remove_when_clicked := true }).trace
      = [Action.createChannel "org.test" "t" IMPORTANCE_DEFAULT,
         Action.newBuilder (some "org.test"),
         Action.setContentTitle "t", Action.setContentText "m",
         Action.setTicker "", Action.buildCall,
         Action.serviceNotify 0] ∧
    (notify envOK 26 0 "org.test"
        { title := some "t", message := some "m", ticker := some "",
          remove_when_clicked := true }).outcome = Outcome.ok ∧
    set_open_behavior true
      = [Action.setContentIntent, Action.setAutoCancel] := by
  decide

end Plyer
